import Mathlib

/-!
Verification of the geometry-and-layout engine of the factorio SVG drawing
tool (`src/drawscape_factorio/create.py`).

Shallow embedding conventions:
  * Python numbers (ints and floats flowing through the layout math) are
    modelled as exact rationals `ℚ`.
  * An `EntityCollection` (a Python dict from category name to a list of
    entity records) is modelled as an association list preserving insertion
    order; only the numeric `x`/`y` fields of an entity are relevant here.
  * Fallible Python code is modelled with `Except PyErr`: subscripting the
    `None` returned by `get_entity_bounds` raises a `TypeError`, and dividing
    by a zero extent raises a `ZeroDivisionError`.
  * Python `int()` truncates toward zero and `range a b` enumerates
    `a, a+1, ..., b-1`; both are modelled explicitly (`pyInt`, `pyRange`).
  * The external theme is abstracted as a rendering function from category
    name and entity to an opaque shape type.
-/

/-- An entity record: only the numeric `x` and `y` position matter for
bounds and layout. -/
structure Entity where
  x : ℚ
  y : ℚ
deriving Repr, DecidableEq

/-- A mapping from category name to an ordered sequence of entities,
modelled as an association list in insertion order. -/
abbrev EntityCollection := List (String × List Entity)

/-- The bounding rectangle returned by `get_entity_bounds` when entities
exist. -/
structure Bounds where
  min_x : ℚ
  max_x : ℚ
  min_y : ℚ
  max_y : ℚ
deriving Repr, DecidableEq

/-- The Python exceptions the layout path can raise: `TypeError` from
subscripting `None` bounds, `ZeroDivisionError` from a zero extent. -/
inductive PyErr where
  | typeError
  | zeroDivisionError
deriving Repr, DecidableEq

/-- Page orientation (`calculate_canvas_and_viewbox` second argument). -/
inductive PageOrientation where
  | landscape
  | portrait
deriving Repr, DecidableEq

/-- All entities of the collection flattened into a single list, in
category order (`[entity for category in data.values() for entity in
category]`). -/
def all_entities (data : EntityCollection) : List Entity :=
  (data.map Prod.snd).flatten

/-- `get_entity_bounds` (create.py lines 140-160): `None` when there are no
entities, otherwise the componentwise min and max of all coordinates. -/
def get_entity_bounds (data : EntityCollection) : Option Bounds :=
  match all_entities data with
  | [] => none
  | e :: es =>
    some { min_x := (es.map Entity.x).foldl min e.x
           max_x := (es.map Entity.x).foldl max e.x
           min_y := (es.map Entity.y).foldl min e.y
           max_y := (es.map Entity.y).foldl max e.y }

/-- The fixed A4 page dimensions in millimeters chosen by orientation
(create.py lines 103-108). -/
def page_size : PageOrientation → ℚ × ℚ
  | .landscape => (297, 210)
  | .portrait => (210, 297)

/-- The fixed padding constant (create.py line 110). -/
def padding_mm : ℚ := 10

/-- `content_width_mm = svg_width_mm - 2 * padding_mm` (line 111). -/
def content_width_mm (o : PageOrientation) : ℚ :=
  (page_size o).1 - 2 * padding_mm

/-- `content_height_mm = svg_height_mm - 2 * padding_mm` (line 112). -/
def content_height_mm (o : PageOrientation) : ℚ :=
  (page_size o).2 - 2 * padding_mm

/-- `width = bounds[max_x] - bounds[min_x]` (line 118). -/
def layout_width (b : Bounds) : ℚ := b.max_x - b.min_x

/-- `height = bounds[max_y] - bounds[min_y]` (line 119). -/
def layout_height (b : Bounds) : ℚ := b.max_y - b.min_y

/-- `scale = min(content_width_mm / width, content_height_mm / height)`
(line 120); meaningful only when both extents are nonzero, which the
caller `layout_of_bounds` checks. -/
def layout_scale (b : Bounds) (o : PageOrientation) : ℚ :=
  min (content_width_mm o / layout_width b) (content_height_mm o / layout_height b)

/-- `scaled_width = width * scale` (line 123). -/
def scaled_width (b : Bounds) (o : PageOrientation) : ℚ :=
  layout_width b * layout_scale b o

/-- `scaled_height = height * scale` (line 124). -/
def scaled_height (b : Bounds) (o : PageOrientation) : ℚ :=
  layout_height b * layout_scale b o

/-- `x_offset = (svg_width_mm - scaled_width) / 2` (line 127). -/
def x_offset (b : Bounds) (o : PageOrientation) : ℚ :=
  ((page_size o).1 - scaled_width b o) / 2

/-- `y_offset = (svg_height_mm - scaled_height) / 2` (line 128). -/
def y_offset (b : Bounds) (o : PageOrientation) : ℚ :=
  ((page_size o).2 - scaled_height b o) / 2

/-- The six values returned by `calculate_canvas_and_viewbox`. -/
structure Layout where
  svg_width_mm : ℚ
  svg_height_mm : ℚ
  viewbox_x : ℚ
  viewbox_y : ℚ
  viewbox_width : ℚ
  viewbox_height : ℚ
deriving Repr, DecidableEq

/-- The layout math of `calculate_canvas_and_viewbox` applied to computed
bounds (create.py lines 117-136). In Python, `content_width_mm / width`
raises `ZeroDivisionError` as soon as `width` (or, next, `height`) equals
zero, so the success branch is reached only for nonzero extents. -/
def layout_of_bounds (b : Bounds) (o : PageOrientation) : Except PyErr Layout :=
  if layout_width b = 0 ∨ layout_height b = 0 then
    .error .zeroDivisionError
  else
    .ok { svg_width_mm := (page_size o).1
          svg_height_mm := (page_size o).2
          viewbox_x := b.min_x - (x_offset b o - padding_mm) / layout_scale b o
          viewbox_y := b.min_y - (y_offset b o - padding_mm) / layout_scale b o
          viewbox_width := (page_size o).1 / layout_scale b o
          viewbox_height := (page_size o).2 / layout_scale b o }

instance {ε α : Type} [DecidableEq ε] [DecidableEq α] : DecidableEq (Except ε α) := fun a b =>
  match a, b with
  | .ok x, .ok y =>
    if h : x = y then .isTrue (by rw [h]) else .isFalse (by intro hc; cases hc; exact h rfl)
  | .error x, .error y =>
    if h : x = y then .isTrue (by rw [h]) else .isFalse (by intro hc; cases hc; exact h rfl)
  | .ok _, .error _ => .isFalse (by intro hc; cases hc)
  | .error _, .ok _ => .isFalse (by intro hc; cases hc)

/-- `calculate_canvas_and_viewbox` (create.py lines 100-136): computes the
bounds of the data and then the layout. When `get_entity_bounds` returns
`None`, the subscript `bounds[max_x]` on line 118 raises a `TypeError`
before any of the layout arithmetic runs, so the layout math is never
applied to an empty dataset. -/
def calculate_canvas_and_viewbox (data : EntityCollection) (o : PageOrientation) :
    Except PyErr Layout :=
  match get_entity_bounds data with
  | none => .error .typeError
  | some b => layout_of_bounds b o

/-- Python `int()` applied to a rational: truncation toward zero. -/
def pyInt (q : ℚ) : ℤ :=
  if 0 ≤ q then ⌊q⌋ else ⌈q⌉

/-- Python `range(a, b)`: the integers `a, a+1, ..., b-1` (empty when
`b ≤ a`). -/
def pyRange (a b : ℤ) : List ℤ :=
  (List.range (b - a).toNat).map fun i : ℕ => a + (i : ℤ)

/-- A grid line segment from `(x1, y1)` to `(x2, y2)` (the `start` and
`end` keyword arguments of `dwg.line`). -/
structure GridLine where
  x1 : ℚ
  y1 : ℚ
  x2 : ℚ
  y2 : ℚ
deriving Repr, DecidableEq

/-- The vertical lines of `create_grid` (create.py lines 172-179): one per
`x in range(int(viewbox_x), int(viewbox_x + viewbox_width) + 1)`, spanning
from `viewbox_y` to `viewbox_y + viewbox_height`. -/
def vertical_grid_lines (vx vy vw vh : ℚ) : List GridLine :=
  (pyRange (pyInt vx) (pyInt (vx + vw) + 1)).map fun x : ℤ =>
    { x1 := (x : ℚ), y1 := vy, x2 := (x : ℚ), y2 := vy + vh }

/-- The horizontal lines of `create_grid` (create.py lines 181-188): one
per `y in range(int(viewbox_y), int(viewbox_y + viewbox_height) + 1)`,
spanning from `viewbox_x` to `viewbox_x + viewbox_width`. -/
def horizontal_grid_lines (vx vy vw vh : ℚ) : List GridLine :=
  (pyRange (pyInt vy) (pyInt (vy + vh) + 1)).map fun y : ℤ =>
    { x1 := vx, y1 := (y : ℚ), x2 := vx + vw, y2 := (y : ℚ) }

/-- `create_grid` (create.py lines 162-191): the grid group contents, all
vertical lines followed by all horizontal lines, in loop order. -/
def create_grid (vx vy vw vh : ℚ) : List GridLine :=
  vertical_grid_lines vx vy vw vh ++ horizontal_grid_lines vx vy vw vh

/-- Modelled from the spec words of the grid generator contract, for
comparison with `create_grid`: one vertical line per integer x-coordinate
from `floor(viewbox_x)` to `floor(viewbox_x + viewbox_width)` inclusive,
spanning the full vertical extent, and one horizontal line per integer
y-coordinate from `floor(viewbox_y)` to `floor(viewbox_y +
viewbox_height)` inclusive, spanning the full horizontal extent. -/
def claimed_grid_lines (vx vy vw vh : ℚ) : List GridLine :=
  (pyRange ⌊vx⌋ (⌊vx + vw⌋ + 1)).map
    (fun x : ℤ => { x1 := (x : ℚ), y1 := vy, x2 := (x : ℚ), y2 := vy + vh }) ++
  (pyRange ⌊vy⌋ (⌊vy + vh⌋ + 1)).map
    (fun y : ℤ => { x1 := vx, y1 := (y : ℚ), x2 := vx + vw, y2 := (y : ℚ) })

/-- An element inside an SVG group: a grid line or a shape rendered by the
external theme (the theme is abstracted by the type `σ`). -/
inductive SvgElement (σ : Type) where
  | line (l : GridLine)
  | shape (s : σ)
deriving Repr, DecidableEq

/-- An SVG group (`dwg.g(id=...)`) with its ordered contents. -/
structure SvgGroup (σ : Type) where
  id : String
  elements : List (SvgElement σ)
deriving Repr, DecidableEq

/-- The drawing assembled by `create`: page size, viewBox, and the
top-level groups in the order they are added to the drawing. -/
structure SvgDrawing (σ : Type) where
  svg_width_mm : ℚ
  svg_height_mm : ℚ
  viewbox : ℚ × ℚ × ℚ × ℚ
  groups : List (SvgGroup σ)
deriving Repr, DecidableEq

/-- Python `data.get(entity_type, [])` on the category dict. -/
def dict_get (data : EntityCollection) (k : String) : List Entity :=
  ((data.find? fun p => p.1 == k).map Prod.snd).getD []

/-- The keys of the `entity_types` dict of `create` (create.py lines
55-64), in insertion order; this is the fixed rendering order. -/
def entity_types : List String :=
  ["belts", "walls", "splitters", "asset", "spaceship", "rails"]

/-- The per-category groups built by the loop of `create` (create.py lines
67-73): for each entity type in order, a group holding the rendered
entities in sequence order, added to the drawing only when the category
has at least one entity. -/
def category_groups {σ : Type} (render : String → Entity → σ)
    (data : EntityCollection) : List (SvgGroup σ) :=
  entity_types.filterMap fun t =>
    let entities := dict_get data t
    if entities.isEmpty then none
    else some { id := t, elements := entities.map fun e => SvgElement.shape (render t e) }

/-- `create` (create.py lines 29-76), with file parsing, saving and
optimization stripped away (all external): computes the layout, then
assembles the drawing with the grid group first (added inside
`create_grid`, line 191) followed by the per-category groups. The theme is
abstracted as `render`, mapping a category name and an entity to a shape,
standing for the per-type theme methods of the `entity_types` dict. -/
def create {σ : Type} (render : String → Entity → σ) (data : EntityCollection) :
    Except PyErr (SvgDrawing σ) :=
  match calculate_canvas_and_viewbox data .landscape with
  | .error e => .error e
  | .ok L =>
    .ok { svg_width_mm := L.svg_width_mm
          svg_height_mm := L.svg_height_mm
          viewbox := (L.viewbox_x, L.viewbox_y, L.viewbox_width, L.viewbox_height)
          groups :=
            { id := "grid",
              elements := (create_grid L.viewbox_x L.viewbox_y L.viewbox_width
                L.viewbox_height).map SvgElement.line } :: category_groups render data }

/-! ### Helper lemmas about folded minima and maxima -/

lemma foldl_min_le_init (l : List ℚ) (a : ℚ) : l.foldl min a ≤ a := by
  induction l generalizing a with
  | nil => exact le_refl a
  | cons c l ih => exact le_trans (ih (min a c)) (min_le_left a c)

lemma foldl_min_le_mem (l : List ℚ) (a b : ℚ) (hb : b ∈ l) : l.foldl min a ≤ b := by
  induction l generalizing a with
  | nil => cases hb
  | cons c l ih =>
    rcases List.mem_cons.mp hb with h | h
    · subst h
      exact le_trans (foldl_min_le_init l (min a b)) (min_le_right a b)
    · exact ih (min a c) h

lemma init_le_foldl_max (l : List ℚ) (a : ℚ) : a ≤ l.foldl max a := by
  induction l generalizing a with
  | nil => exact le_refl a
  | cons c l ih => exact le_trans (le_max_left a c) (ih (max a c))

lemma mem_le_foldl_max (l : List ℚ) (a b : ℚ) (hb : b ∈ l) : b ≤ l.foldl max a := by
  induction l generalizing a with
  | nil => cases hb
  | cons c l ih =>
    rcases List.mem_cons.mp hb with h | h
    · subst h
      exact le_trans (le_max_right a b) (init_le_foldl_max l (max a b))
    · exact ih (max a c) h

lemma foldl_min_const (l : List ℚ) (a : ℚ) (h : ∀ b ∈ l, b = a) : l.foldl min a = a := by
  induction l with
  | nil => rfl
  | cons c l ih =>
    have hc : c = a := h c (List.mem_cons_self c l)
    subst hc
    simp only [List.foldl_cons, min_self]
    exact ih fun b hb => h b (List.mem_cons_of_mem c hb)

lemma foldl_max_const (l : List ℚ) (a : ℚ) (h : ∀ b ∈ l, b = a) : l.foldl max a = a := by
  induction l with
  | nil => rfl
  | cons c l ih =>
    have hc : c = a := h c (List.mem_cons_self c l)
    subst hc
    simp only [List.foldl_cons, max_self]
    exact ih fun b hb => h b (List.mem_cons_of_mem c hb)

/-- Membership in the flattened entity list, stated through the
collection. -/
lemma mem_all_entities (data : EntityCollection) (e : Entity) :
    e ∈ all_entities data ↔ ∃ p ∈ data, e ∈ p.2 := by
  simp only [all_entities, List.mem_flatten, List.mem_map]
  constructor
  · rintro ⟨l, ⟨p, hp, rfl⟩, he⟩
    exact ⟨p, hp, he⟩
  · rintro ⟨p, hp, he⟩
    exact ⟨p.2, ⟨p, hp, rfl⟩, he⟩

/-- The flattened entity list is empty exactly when every category is
empty. -/
lemma all_entities_eq_nil (data : EntityCollection) :
    all_entities data = [] ↔ ∀ p ∈ data, p.2 = [] := by
  simp only [all_entities, List.flatten_eq_nil_iff, List.mem_map]
  constructor
  · rintro h p hp
    exact h p.2 ⟨p, hp, rfl⟩
  · rintro h l ⟨p, hp, rfl⟩
    exact h p hp

/-- The shape `get_entity_bounds` takes on a nonempty flattened entity
list. -/
lemma get_entity_bounds_cons (data : EntityCollection) (e0 : Entity) (es : List Entity)
    (hall : all_entities data = e0 :: es) :
    get_entity_bounds data =
      some { min_x := (es.map Entity.x).foldl min e0.x
             max_x := (es.map Entity.x).foldl max e0.x
             min_y := (es.map Entity.y).foldl min e0.y
             max_y := (es.map Entity.y).foldl max e0.y } := by
  rw [get_entity_bounds, hall]

/-! ### Helper lemmas about the grid generator -/

lemma mem_pyRange {a b n : ℤ} : n ∈ pyRange a b ↔ a ≤ n ∧ n < b := by
  simp only [pyRange, List.mem_map, List.mem_range]
  constructor
  · rintro ⟨i, hi, rfl⟩
    omega
  · rintro ⟨h1, h2⟩
    exact ⟨(n - a).toNat, by omega, by omega⟩

lemma pyRange_length (a b : ℤ) : (pyRange a b).length = (b - a).toNat := by
  simp [pyRange]

lemma pyRange_nodup (a b : ℤ) : (pyRange a b).Nodup :=
  (List.nodup_range _).map fun i j h => by omega

lemma pyInt_intCast (n : ℤ) : pyInt (n : ℚ) = n := by
  rw [pyInt]
  split
  · exact Int.floor_intCast n
  · exact Int.ceil_intCast n

lemma mem_vertical_grid_lines (vx vy vw vh : ℚ) (l : GridLine) :
    l ∈ vertical_grid_lines vx vy vw vh ↔
      ∃ n : ℤ, pyInt vx ≤ n ∧ n ≤ pyInt (vx + vw) ∧
        l = { x1 := (n : ℚ), y1 := vy, x2 := (n : ℚ), y2 := vy + vh } := by
  simp only [vertical_grid_lines, List.mem_map]
  constructor
  · rintro ⟨n, hn, rfl⟩
    have h := mem_pyRange.mp hn
    exact ⟨n, h.1, by omega, rfl⟩
  · rintro ⟨n, h1, h2, rfl⟩
    exact ⟨n, mem_pyRange.mpr ⟨h1, by omega⟩, rfl⟩

lemma mem_horizontal_grid_lines (vx vy vw vh : ℚ) (l : GridLine) :
    l ∈ horizontal_grid_lines vx vy vw vh ↔
      ∃ n : ℤ, pyInt vy ≤ n ∧ n ≤ pyInt (vy + vh) ∧
        l = { x1 := vx, y1 := (n : ℚ), x2 := vx + vw, y2 := (n : ℚ) } := by
  simp only [horizontal_grid_lines, List.mem_map]
  constructor
  · rintro ⟨n, hn, rfl⟩
    have h := mem_pyRange.mp hn
    exact ⟨n, h.1, by omega, rfl⟩
  · rintro ⟨n, h1, h2, rfl⟩
    exact ⟨n, mem_pyRange.mpr ⟨h1, by omega⟩, rfl⟩

lemma vertical_grid_lines_nodup (vx vy vw vh : ℚ) :
    (vertical_grid_lines vx vy vw vh).Nodup := by
  refine (pyRange_nodup _ _).map fun n m h => ?_
  have hx : ((n : ℚ)) = ((m : ℚ)) := congrArg GridLine.x1 h
  exact_mod_cast hx

lemma horizontal_grid_lines_nodup (vx vy vw vh : ℚ) :
    (horizontal_grid_lines vx vy vw vh).Nodup := by
  refine (pyRange_nodup _ _).map fun n m h => ?_
  have hy : ((n : ℚ)) = ((m : ℚ)) := congrArg GridLine.y1 h
  exact_mod_cast hy

lemma vertical_grid_lines_length (vx vy vw vh : ℚ) :
    (vertical_grid_lines vx vy vw vh).length = (pyInt (vx + vw) + 1 - pyInt vx).toNat := by
  simp [vertical_grid_lines, pyRange_length]

lemma horizontal_grid_lines_length (vx vy vw vh : ℚ) :
    (horizontal_grid_lines vx vy vw vh).length =
      (pyInt (vy + vh) + 1 - pyInt vy).toNat := by
  simp [horizontal_grid_lines, pyRange_length]

/-! ### Helper lemmas about the layout arithmetic -/

lemma content_width_pos (o : PageOrientation) : 0 < content_width_mm o := by
  cases o <;> norm_num [content_width_mm, page_size, padding_mm]

lemma content_height_pos (o : PageOrientation) : 0 < content_height_mm o := by
  cases o <;> norm_num [content_height_mm, page_size, padding_mm]

lemma layout_scale_pos (b : Bounds) (o : PageOrientation)
    (hw : 0 < layout_width b) (hh : 0 < layout_height b) : 0 < layout_scale b o := by
  rw [layout_scale]
  exact lt_min (div_pos (content_width_pos o) hw) (div_pos (content_height_pos o) hh)

lemma width_mul_scale_le (b : Bounds) (o : PageOrientation) (hw : 0 < layout_width b) :
    layout_width b * layout_scale b o ≤ content_width_mm o := by
  calc layout_width b * layout_scale b o
      ≤ layout_width b * (content_width_mm o / layout_width b) :=
        mul_le_mul_of_nonneg_left (by rw [layout_scale]; exact min_le_left _ _) hw.le
    _ = content_width_mm o := by rw [mul_comm, div_mul_cancel₀ _ hw.ne']

lemma height_mul_scale_le (b : Bounds) (o : PageOrientation) (hh : 0 < layout_height b) :
    layout_height b * layout_scale b o ≤ content_height_mm o := by
  calc layout_height b * layout_scale b o
      ≤ layout_height b * (content_height_mm o / layout_height b) :=
        mul_le_mul_of_nonneg_left (by rw [layout_scale]; exact min_le_right _ _) hh.le
    _ = content_height_mm o := by rw [mul_comm, div_mul_cancel₀ _ hh.ne']

/-- One-axis containment: when the scaled extent fits in the padded page,
the viewbox origin lies at or before the minimum coordinate and the
viewbox reaches at or beyond the maximum coordinate. -/
lemma axis_contain (m w pw S : ℚ) (_hw : 0 < w) (hS : 0 < S) (hws : w * S ≤ pw - 20) :
    m - ((pw - w * S) / 2 - 10) / S ≤ m ∧
    m + w ≤ m - ((pw - w * S) / 2 - 10) / S + pw / S := by
  have hnum : 0 ≤ (pw - w * S) / 2 - 10 := by linarith
  constructor
  · have h0 : 0 ≤ ((pw - w * S) / 2 - 10) / S := div_nonneg hnum hS.le
    linarith
  · have h3 : w ≤ (pw - ((pw - w * S) / 2 - 10)) / S := by
      rw [le_div_iff₀ hS]
      linarith
    have h4 : (pw - ((pw - w * S) / 2 - 10)) / S =
        pw / S - ((pw - w * S) / 2 - 10) / S := by
      rw [sub_div]
    linarith

/-- Concrete scale for the bounding rectangle `[0,100] x [0,50]` in
landscape orientation. -/
lemma scale_sample : layout_scale ⟨0, 100, 0, 50⟩ .landscape = 277 / 100 := by
  rw [layout_scale, min_eq_left]
  · norm_num [content_width_mm, layout_width, page_size, padding_mm]
  · norm_num [content_width_mm, content_height_mm, layout_width, layout_height,
      page_size, padding_mm]

/-- Concrete layout for the bounding rectangle `[0,100] x [0,50]` in
landscape orientation. -/
lemma layout_sample :
    layout_of_bounds ⟨0, 100, 0, 50⟩ .landscape =
      .ok ⟨297, 210, 0, -2575 / 277, 29700 / 277, 21000 / 277⟩ := by
  rw [layout_of_bounds, if_neg]
  · simp only [x_offset, y_offset, scaled_width, scaled_height, scale_sample,
      layout_width, layout_height, page_size, padding_mm]
    norm_num
  · norm_num [layout_width, layout_height]

/-- C1: for every bounding rectangle with strictly positive width and
height and either orientation, the layout math returns exactly the values
of the algorithm stated in the spec: `scale` is the minimum of the content
dimensions (page minus `2*10`mm of padding) over the extents, the viewbox
spans the whole page divided by the scale, and the viewbox origin is
`min - (offset - padding) / scale` with the centering offsets
`(page - extent*scale) / 2`. -/
theorem layout_formulas (b : Bounds) (o : PageOrientation)
    (hw : 0 < b.max_x - b.min_x) (hh : 0 < b.max_y - b.min_y) :
    layout_scale b o =
      min (((page_size o).1 - 2 * 10) / (b.max_x - b.min_x))
          (((page_size o).2 - 2 * 10) / (b.max_y - b.min_y)) ∧
    layout_of_bounds b o = .ok
      { svg_width_mm := (page_size o).1
        svg_height_mm := (page_size o).2
        viewbox_x := b.min_x -
          (((page_size o).1 - (b.max_x - b.min_x) * layout_scale b o) / 2 - 10) /
            layout_scale b o
        viewbox_y := b.min_y -
          (((page_size o).2 - (b.max_y - b.min_y) * layout_scale b o) / 2 - 10) /
            layout_scale b o
        viewbox_width := (page_size o).1 / layout_scale b o
        viewbox_height := (page_size o).2 / layout_scale b o } := by
  have hcond : ¬(layout_width b = 0 ∨ layout_height b = 0) := by
    push_neg
    constructor
    · simpa [layout_width] using hw.ne'
    · simpa [layout_height] using hh.ne'
  constructor
  · rw [layout_scale, content_width_mm, content_height_mm, layout_width, layout_height,
      padding_mm]
  · rw [layout_of_bounds, if_neg hcond]
    simp only [x_offset, y_offset, scaled_width, scaled_height, layout_width,
      layout_height, padding_mm]

/-- Witness for C1 at the bounding rectangle `[0,100] x [0,50]`. -/
theorem layout_formulas_witness :
    (0 : ℚ) < 100 - 0 ∧ (0 : ℚ) < 50 - 0 ∧
    (layout_scale ⟨0, 100, 0, 50⟩ .landscape =
      min (((page_size .landscape).1 - 2 * 10) / (100 - 0))
          (((page_size .landscape).2 - 2 * 10) / (50 - 0)) ∧
    layout_of_bounds ⟨0, 100, 0, 50⟩ .landscape = .ok
      { svg_width_mm := (page_size .landscape).1
        svg_height_mm := (page_size .landscape).2
        viewbox_x := 0 -
          (((page_size .landscape).1 - (100 - 0) * layout_scale ⟨0, 100, 0, 50⟩ .landscape) / 2
              - 10) / layout_scale ⟨0, 100, 0, 50⟩ .landscape
        viewbox_y := 0 -
          (((page_size .landscape).2 - (50 - 0) * layout_scale ⟨0, 100, 0, 50⟩ .landscape) / 2
              - 10) / layout_scale ⟨0, 100, 0, 50⟩ .landscape
        viewbox_width := (page_size .landscape).1 / layout_scale ⟨0, 100, 0, 50⟩ .landscape
        viewbox_height :=
          (page_size .landscape).2 / layout_scale ⟨0, 100, 0, 50⟩ .landscape }) :=
  ⟨by norm_num, by norm_num,
    layout_formulas ⟨0, 100, 0, 50⟩ .landscape (by norm_num) (by norm_num)⟩

/-- C5: for every bounding rectangle with strictly positive width and
height and either orientation, the viewbox returned by the layout fully
contains the original bounding rectangle: no content is clipped. -/
theorem viewbox_contains_bounds (b : Bounds) (o : PageOrientation) (L : Layout)
    (hw : 0 < layout_width b) (hh : 0 < layout_height b)
    (hL : layout_of_bounds b o = .ok L) :
    L.viewbox_x ≤ b.min_x ∧ b.max_x ≤ L.viewbox_x + L.viewbox_width ∧
    L.viewbox_y ≤ b.min_y ∧ b.max_y ≤ L.viewbox_y + L.viewbox_height := by
  have hcond : ¬(layout_width b = 0 ∨ layout_height b = 0) := by
    push_neg
    exact ⟨hw.ne', hh.ne'⟩
  rw [layout_of_bounds, if_neg hcond] at hL
  injection hL with hL
  subst hL
  dsimp only
  simp only [x_offset, y_offset, scaled_width, scaled_height, padding_mm]
  have hS : 0 < layout_scale b o := layout_scale_pos b o hw hh
  have hws : layout_width b * layout_scale b o ≤ (page_size o).1 - 20 := by
    have h1 := width_mul_scale_le b o hw
    rw [content_width_mm, padding_mm] at h1
    linarith
  have hhs : layout_height b * layout_scale b o ≤ (page_size o).2 - 20 := by
    have h1 := height_mul_scale_le b o hh
    rw [content_height_mm, padding_mm] at h1
    linarith
  have hx := axis_contain b.min_x (layout_width b) (page_size o).1 (layout_scale b o)
    hw hS hws
  have hy := axis_contain b.min_y (layout_height b) (page_size o).2 (layout_scale b o)
    hh hS hhs
  have hmaxx : b.max_x = b.min_x + layout_width b := by rw [layout_width]; ring
  have hmaxy : b.max_y = b.min_y + layout_height b := by rw [layout_height]; ring
  refine ⟨hx.1, ?_, hy.1, ?_⟩
  · rw [hmaxx]
    exact hx.2
  · rw [hmaxy]
    exact hy.2

/-- Witness for C5 at the bounding rectangle `[0,100] x [0,50]`. -/
theorem viewbox_contains_bounds_witness :
    (0 : ℚ) < layout_width ⟨0, 100, 0, 50⟩ ∧ (0 : ℚ) < layout_height ⟨0, 100, 0, 50⟩ ∧
    layout_of_bounds ⟨0, 100, 0, 50⟩ .landscape =
      .ok ⟨297, 210, 0, -2575 / 277, 29700 / 277, 21000 / 277⟩ ∧
    ((0 : ℚ) ≤ 0 ∧ (100 : ℚ) ≤ 0 + 29700 / 277 ∧
      (-2575 / 277 : ℚ) ≤ 0 ∧ (50 : ℚ) ≤ -2575 / 277 + 21000 / 277) := by
  have h1 : (0 : ℚ) < layout_width ⟨0, 100, 0, 50⟩ := by norm_num [layout_width]
  have h2 : (0 : ℚ) < layout_height ⟨0, 100, 0, 50⟩ := by norm_num [layout_height]
  exact ⟨h1, h2, layout_sample,
    viewbox_contains_bounds ⟨0, 100, 0, 50⟩ .landscape _ h1 h2 layout_sample⟩

/-- C9: a single uniform scale is applied to both axes, so the scaled
content dimensions keep the aspect ratio of the bounding rectangle
exactly (no floating-point tolerance is even needed over `ℚ`). -/
theorem aspect_ratio_preserved (b : Bounds) (o : PageOrientation)
    (hw : 0 < layout_width b) (hh : 0 < layout_height b) :
    scaled_width b o / scaled_height b o = layout_width b / layout_height b := by
  have hS : 0 < layout_scale b o := layout_scale_pos b o hw hh
  rw [scaled_width, scaled_height, div_eq_div_iff (mul_pos hh hS).ne' hh.ne']
  ring

/-- Witness for C9 at the bounding rectangle `[0,100] x [0,50]`. -/
theorem aspect_ratio_preserved_witness :
    (0 : ℚ) < layout_width ⟨0, 100, 0, 50⟩ ∧ (0 : ℚ) < layout_height ⟨0, 100, 0, 50⟩ ∧
    scaled_width ⟨0, 100, 0, 50⟩ .landscape / scaled_height ⟨0, 100, 0, 50⟩ .landscape =
      layout_width ⟨0, 100, 0, 50⟩ / layout_height ⟨0, 100, 0, 50⟩ := by
  have h1 : (0 : ℚ) < layout_width ⟨0, 100, 0, 50⟩ := by norm_num [layout_width]
  have h2 : (0 : ℚ) < layout_height ⟨0, 100, 0, 50⟩ := by norm_num [layout_height]
  exact ⟨h1, h2, aspect_ratio_preserved ⟨0, 100, 0, 50⟩ .landscape h1 h2⟩

/-- C10: the layout depends on the collection only through its computed
bounds: two collections with the same bounding rectangle receive identical
page dimensions and viewbox for the same orientation, whatever their
category names, entity counts or other entity fields. -/
theorem layout_depends_only_on_bounds (d1 d2 : EntityCollection) (b : Bounds)
    (o : PageOrientation) (h1 : get_entity_bounds d1 = some b)
    (h2 : get_entity_bounds d2 = some b) :
    calculate_canvas_and_viewbox d1 o = calculate_canvas_and_viewbox d2 o := by
  simp only [calculate_canvas_and_viewbox, h1, h2]

/-- Witness for C10: two collections differing in category names, entity
counts and non-extreme entities, with equal bounds. -/
theorem layout_depends_only_on_bounds_witness :
    get_entity_bounds [("belts", [⟨0, 0⟩, ⟨1, 2⟩])] = some ⟨0, 1, 0, 2⟩ ∧
    get_entity_bounds [("walls", [⟨1, 0⟩, ⟨0, 2⟩, ⟨1, 1⟩]), ("rails", [])] =
      some ⟨0, 1, 0, 2⟩ ∧
    calculate_canvas_and_viewbox [("belts", [⟨0, 0⟩, ⟨1, 2⟩])] .portrait =
      calculate_canvas_and_viewbox [("walls", [⟨1, 0⟩, ⟨0, 2⟩, ⟨1, 1⟩]), ("rails", [])]
        .portrait := by
  have hb1 : get_entity_bounds [("belts", [⟨0, 0⟩, ⟨1, 2⟩])] = some ⟨0, 1, 0, 2⟩ := by
    rw [get_entity_bounds_cons [("belts", [⟨0, 0⟩, ⟨1, 2⟩])] ⟨0, 0⟩ [⟨1, 2⟩] rfl]
    norm_num [min_def, max_def]
  have hb2 : get_entity_bounds [("walls", [⟨1, 0⟩, ⟨0, 2⟩, ⟨1, 1⟩]), ("rails", [])] =
      some ⟨0, 1, 0, 2⟩ := by
    rw [get_entity_bounds_cons [("walls", [⟨1, 0⟩, ⟨0, 2⟩, ⟨1, 1⟩]), ("rails", [])]
      ⟨1, 0⟩ [⟨0, 2⟩, ⟨1, 1⟩] rfl]
    norm_num [min_def, max_def]
  exact ⟨hb1, hb2, layout_depends_only_on_bounds _ _ ⟨0, 1, 0, 2⟩ .portrait hb1 hb2⟩

/-- Counterexample to C7 as stated: at bounds `{0,100} x {0,50}` in
landscape orientation, the horizontal centering offset computed by the
code is `(297 - 277) / 2 = 10` millimeters (exactly the padding), not `0`
as the claim asserts. -/
theorem scenario_x_offset_counterexample :
    x_offset ⟨0, 100, 0, 50⟩ .landscape = 10 ∧ (10 : ℚ) ≠ 0 := by
  constructor
  · rw [x_offset, scaled_width, scale_sample]
    norm_num [layout_width, page_size]
  · norm_num

/-- C7 amended: for bounds `{min_x:0, max_x:100, min_y:0, max_y:50}` with
landscape orientation the code yields page 297x210mm, content box
277x190mm, `scale = min(277/100, 190/50) = 2.77`, `scaled_width = 277`,
`scaled_height = 138.5`, `x_offset = 10` (the padding, since the scaled
width exactly fills the content box - not `0` as the spec scenario says),
`y_offset = 35.75`, and a viewbox fully covering `[0,100] x [0,50]`. -/
theorem scenario_landscape_layout :
    page_size .landscape = (297, 210) ∧
    content_width_mm .landscape = 277 ∧
    content_height_mm .landscape = 190 ∧
    layout_scale ⟨0, 100, 0, 50⟩ .landscape = 277 / 100 ∧
    scaled_width ⟨0, 100, 0, 50⟩ .landscape = 277 ∧
    scaled_height ⟨0, 100, 0, 50⟩ .landscape = 277 / 2 ∧
    x_offset ⟨0, 100, 0, 50⟩ .landscape = 10 ∧
    y_offset ⟨0, 100, 0, 50⟩ .landscape = 143 / 4 ∧
    layout_of_bounds ⟨0, 100, 0, 50⟩ .landscape =
      .ok ⟨297, 210, 0, -2575 / 277, 29700 / 277, 21000 / 277⟩ ∧
    ((0 : ℚ) ≤ 0 ∧ (100 : ℚ) ≤ 0 + 29700 / 277 ∧
      (-2575 / 277 : ℚ) ≤ 0 ∧ (50 : ℚ) ≤ -2575 / 277 + 21000 / 277) := by
  refine ⟨rfl, by norm_num [content_width_mm, page_size, padding_mm],
    by norm_num [content_height_mm, page_size, padding_mm], scale_sample, ?_, ?_, ?_, ?_,
    layout_sample, by norm_num, by norm_num, by norm_num, by norm_num⟩
  · rw [scaled_width, scale_sample]
    norm_num [layout_width]
  · rw [scaled_height, scale_sample]
    norm_num [layout_height]
  · rw [x_offset, scaled_width, scale_sample]
    norm_num [layout_width, page_size]
  · rw [y_offset, scaled_height, scale_sample]
    norm_num [layout_height, page_size]

/-- C4: for every non-empty EntityCollection, `get_entity_bounds` returns
a rectangle `{min_x, max_x, min_y, max_y}` with `min_x ≤ x ≤ max_x` and
`min_y ≤ y ≤ max_y` for every entity `(x, y)` of every category, and
consequently `min_x ≤ max_x` and `min_y ≤ max_y`. -/
theorem get_entity_bounds_contains (data : EntityCollection) (b : Bounds)
    (h : get_entity_bounds data = some b) :
    (∀ p ∈ data, ∀ e ∈ p.2,
      b.min_x ≤ e.x ∧ e.x ≤ b.max_x ∧ b.min_y ≤ e.y ∧ e.y ≤ b.max_y) ∧
    b.min_x ≤ b.max_x ∧ b.min_y ≤ b.max_y := by
  cases hall : all_entities data with
  | nil =>
    rw [get_entity_bounds, hall] at h
    cases h
  | cons e0 es =>
    rw [get_entity_bounds_cons data e0 es hall] at h
    injection h with h
    subst h
    constructor
    · intro p hp e he
      have hmem : e ∈ all_entities data := (mem_all_entities data e).mpr ⟨p, hp, he⟩
      rw [hall] at hmem
      rcases List.mem_cons.mp hmem with rfl | hmem
      · exact ⟨foldl_min_le_init _ _, init_le_foldl_max _ _,
          foldl_min_le_init _ _, init_le_foldl_max _ _⟩
      · have hx : e.x ∈ es.map Entity.x := List.mem_map_of_mem Entity.x hmem
        have hy : e.y ∈ es.map Entity.y := List.mem_map_of_mem Entity.y hmem
        exact ⟨foldl_min_le_mem _ _ _ hx, mem_le_foldl_max _ _ _ hx,
          foldl_min_le_mem _ _ _ hy, mem_le_foldl_max _ _ _ hy⟩
    · exact ⟨le_trans (foldl_min_le_init _ _) (init_le_foldl_max _ _),
        le_trans (foldl_min_le_init _ _) (init_le_foldl_max _ _)⟩

/-- Witness for C4 at a concrete collection. -/
theorem get_entity_bounds_contains_witness :
    get_entity_bounds [("belts", [⟨1, 5⟩, ⟨-2, 7⟩])] = some ⟨-2, 1, 5, 7⟩ ∧
    ((∀ p ∈ ([("belts", [⟨1, 5⟩, ⟨-2, 7⟩])] : EntityCollection), ∀ e ∈ p.2,
        (-2 : ℚ) ≤ e.x ∧ e.x ≤ 1 ∧ (5 : ℚ) ≤ e.y ∧ e.y ≤ 7) ∧
      (-2 : ℚ) ≤ 1 ∧ (5 : ℚ) ≤ 7) := by
  have hb : get_entity_bounds [("belts", [⟨1, 5⟩, ⟨-2, 7⟩])] = some ⟨-2, 1, 5, 7⟩ := by
    rw [get_entity_bounds_cons [("belts", [⟨1, 5⟩, ⟨-2, 7⟩])] ⟨1, 5⟩ [⟨-2, 7⟩] rfl]
    norm_num [min_def, max_def]
  exact ⟨hb, get_entity_bounds_contains _ ⟨-2, 1, 5, 7⟩ hb⟩

/-- C2: when every category of the collection is empty,
`get_entity_bounds` returns the distinguished empty result (`None`); the
layout math is then never reached: `calculate_canvas_and_viewbox` fails
immediately (in Python, subscripting the `None` bounds raises `TypeError`
on line 118 before any layout arithmetic), so the caller of `create`
receives that failure and no degenerate or NaN-filled viewbox is ever
produced. -/
theorem empty_dataset_failure {σ : Type} (render : String → Entity → σ)
    (data : EntityCollection) (o : PageOrientation) (h : ∀ p ∈ data, p.2 = []) :
    get_entity_bounds data = none ∧
    calculate_canvas_and_viewbox data o = .error .typeError ∧
    create render data = .error .typeError := by
  have hall : all_entities data = [] := (all_entities_eq_nil data).mpr h
  have hb : get_entity_bounds data = none := by
    rw [get_entity_bounds, hall]
  have hc : ∀ o2, calculate_canvas_and_viewbox data o2 = .error .typeError := by
    intro o2
    rw [calculate_canvas_and_viewbox, hb]
  refine ⟨hb, hc o, ?_⟩
  rw [create, hc .landscape]

/-- Witness for C2 at a concrete all-empty collection. -/
theorem empty_dataset_failure_witness :
    (∀ p ∈ ([("belts", []), ("walls", [])] : EntityCollection), p.2 = []) ∧
    (get_entity_bounds [("belts", []), ("walls", [])] = none ∧
      calculate_canvas_and_viewbox [("belts", []), ("walls", [])] .portrait =
        .error .typeError ∧
      create (fun _ _ => ()) [("belts", []), ("walls", [])] = .error .typeError) := by
  have h : ∀ p ∈ ([("belts", []), ("walls", [])] : EntityCollection), p.2 = [] := by
    intro p hp
    rcases List.mem_cons.mp hp with rfl | hp
    · rfl
    · rcases List.mem_cons.mp hp with rfl | hp
      · rfl
      · cases hp
  exact ⟨h, empty_dataset_failure (fun _ _ => ()) _ .portrait h⟩

/-- C3: on a non-empty collection whose entities all share the same x
coordinate (zero width) or all share the same y coordinate (zero height),
`calculate_canvas_and_viewbox` fails with the division-by-zero of the
scale computation (the failure mode the spec names DegenerateExtent)
instead of returning a viewbox holding infinite or NaN values. -/
theorem degenerate_extent_failure (data : EntityCollection) (o : PageOrientation)
    (hne : all_entities data ≠ [])
    (hsame : (∀ e1 ∈ all_entities data, ∀ e2 ∈ all_entities data, e1.x = e2.x) ∨
             (∀ e1 ∈ all_entities data, ∀ e2 ∈ all_entities data, e1.y = e2.y)) :
    calculate_canvas_and_viewbox data o = .error .zeroDivisionError := by
  cases hall : all_entities data with
  | nil => exact absurd hall hne
  | cons e0 es =>
    simp only [calculate_canvas_and_viewbox, get_entity_bounds_cons data e0 es hall]
    rw [layout_of_bounds, if_pos]
    have h0 : e0 ∈ all_entities data := by rw [hall]; exact List.mem_cons_self e0 es
    cases hsame with
    | inl hx =>
      left
      have hconst : ∀ b ∈ es.map Entity.x, b = e0.x := by
        rintro b hb
        rcases List.mem_map.mp hb with ⟨e, he, rfl⟩
        have he2 : e ∈ all_entities data := by rw [hall]; exact List.mem_cons_of_mem e0 he
        exact hx e he2 e0 h0
      simp only [layout_width, foldl_min_const _ _ hconst, foldl_max_const _ _ hconst, sub_self]
    | inr hy =>
      right
      have hconst : ∀ b ∈ es.map Entity.y, b = e0.y := by
        rintro b hb
        rcases List.mem_map.mp hb with ⟨e, he, rfl⟩
        have he2 : e ∈ all_entities data := by rw [hall]; exact List.mem_cons_of_mem e0 he
        exact hy e he2 e0 h0
      simp only [layout_height, foldl_min_const _ _ hconst, foldl_max_const _ _ hconst, sub_self]

/-- Witness for C3 at a concrete vertical line of entities. -/
theorem degenerate_extent_failure_witness :
    all_entities [("belts", [⟨3, 1⟩, ⟨3, 5⟩])] ≠ [] ∧
    calculate_canvas_and_viewbox [("belts", [⟨3, 1⟩, ⟨3, 5⟩])] .landscape =
      .error .zeroDivisionError := by
  have hne : all_entities [("belts", [⟨3, 1⟩, ⟨3, 5⟩])] ≠ [] := by
    simp [all_entities]
  refine ⟨hne, degenerate_extent_failure _ .landscape hne (Or.inl ?_)⟩
  intro e1 h1 e2 h2
  simp only [all_entities, List.map_cons, List.map_nil, List.flatten, List.append_nil,
    List.mem_cons, List.not_mem_nil, or_false] at h1 h2
  rcases h1 with rfl | rfl <;> rcases h2 with rfl | rfl <;> rfl

/-- C6 amended: `create_grid` produces exactly one vertical line per
integer x-coordinate from `int(viewbox_x)` to `int(viewbox_x +
viewbox_width)` inclusive (Python `int()`, truncation toward zero - not
`floor` as the claim says, which differs on negative non-integer
coordinates), each spanning from `viewbox_y` to `viewbox_y +
viewbox_height`, and one horizontal line per integer y-coordinate from
`int(viewbox_y)` to `int(viewbox_y + viewbox_height)` inclusive, each
spanning the full horizontal extent; for a viewbox with integer origin and
integer width `W` and height `H` it produces exactly `W+1` vertical and
`H+1` horizontal lines. -/
theorem create_grid_description (vx vy vw vh : ℚ) :
    (∀ l, l ∈ create_grid vx vy vw vh ↔
        (∃ n : ℤ, pyInt vx ≤ n ∧ n ≤ pyInt (vx + vw) ∧
          l = { x1 := (n : ℚ), y1 := vy, x2 := (n : ℚ), y2 := vy + vh }) ∨
        (∃ n : ℤ, pyInt vy ≤ n ∧ n ≤ pyInt (vy + vh) ∧
          l = { x1 := vx, y1 := (n : ℚ), x2 := vx + vw, y2 := (n : ℚ) })) ∧
    (vertical_grid_lines vx vy vw vh).Nodup ∧
    (horizontal_grid_lines vx vy vw vh).Nodup ∧
    (∀ (x0 y0 : ℤ) (W H : ℕ),
      (vertical_grid_lines (x0 : ℚ) (y0 : ℚ) (W : ℚ) (H : ℚ)).length = W + 1 ∧
      (horizontal_grid_lines (x0 : ℚ) (y0 : ℚ) (W : ℚ) (H : ℚ)).length = H + 1) := by
  refine ⟨?_, vertical_grid_lines_nodup vx vy vw vh,
    horizontal_grid_lines_nodup vx vy vw vh, ?_⟩
  · intro l
    rw [create_grid, List.mem_append, mem_vertical_grid_lines, mem_horizontal_grid_lines]
  · intro x0 y0 W H
    have hcx : (x0 : ℚ) + (W : ℚ) = ((x0 + (W : ℤ) : ℤ) : ℚ) := by push_cast; ring
    have hcy : (y0 : ℚ) + (H : ℚ) = ((y0 + (H : ℤ) : ℤ) : ℚ) := by push_cast; ring
    constructor
    · rw [vertical_grid_lines_length, hcx, pyInt_intCast, pyInt_intCast]
      omega
    · rw [horizontal_grid_lines_length, hcy, pyInt_intCast, pyInt_intCast]
      omega

/-- Counterexample to C6 as stated: for the viewbox with origin
`(-5/2, 0)`, width `5` and height `1`, the code generates vertical lines
at `x = -2..2` (five lines, from truncation toward zero), while the
claimed floor-based rule demands lines at `x = -3..2` (six lines, `W+1`
with `W = 5`); the produced grid therefore differs from the claimed one
and the vertical line count is `5`, not `W+1 = 6`. -/
theorem create_grid_floor_counterexample :
    create_grid (-5/2) 0 5 1 ≠ claimed_grid_lines (-5/2) 0 5 1 ∧
    (vertical_grid_lines (-5/2) 0 5 1).length = 5 := by
  have hpi1 : pyInt (-5/2 : ℚ) = -2 := by
    rw [pyInt, if_neg (by norm_num)]
    rw [Int.ceil_eq_iff]
    norm_num
  have hpi2 : pyInt ((-5/2 : ℚ) + 5) = 2 := by
    rw [show (-5/2 : ℚ) + 5 = 5/2 by norm_num, pyInt, if_pos (by norm_num),
      Int.floor_eq_iff]
    norm_num
  have hpi3 : pyInt (0 : ℚ) = 0 := by
    rw [pyInt, if_pos le_rfl]
    exact Int.floor_zero
  have hpi4 : pyInt ((0 : ℚ) + 1) = 1 := by
    rw [zero_add, pyInt, if_pos (by norm_num)]
    exact Int.floor_one
  have hfl1 : ⌊(-5/2 : ℚ)⌋ = -3 := by
    rw [Int.floor_eq_iff]
    norm_num
  have hfl2 : ⌊(-5/2 : ℚ) + 5⌋ = 2 := by
    rw [show (-5/2 : ℚ) + 5 = 5/2 by norm_num, Int.floor_eq_iff]
    norm_num
  have hfl3 : ⌊(0 : ℚ)⌋ = 0 := Int.floor_zero
  have hfl4 : ⌊(0 : ℚ) + 1⌋ = 1 := by
    rw [zero_add]
    exact Int.floor_one
  constructor
  · intro h
    have hlen := congrArg List.length h
    simp only [create_grid, claimed_grid_lines, List.length_append,
      vertical_grid_lines, horizontal_grid_lines, List.length_map, pyRange_length,
      hpi1, hpi2, hpi3, hpi4, hfl1, hfl2, hfl3, hfl4] at hlen
    omega
  · rw [vertical_grid_lines_length, hpi1, hpi2]
    decide

/-! ### Helper lemmas about the drawing assembler -/

lemma category_groups_eq {σ : Type} (render : String → Entity → σ)
    (data : EntityCollection) :
    category_groups render data = entity_types.filterMap fun t =>
      if (dict_get data t).isEmpty then none
      else some { id := t,
                  elements := (dict_get data t).map
                    fun e => SvgElement.shape (render t e) } :=
  rfl

lemma filterMap_groups_ids {σ : Type} (render : String → Entity → σ)
    (data : EntityCollection) (l : List String) :
    ((l.filterMap fun t =>
        if (dict_get data t).isEmpty then none
        else some { id := t,
                    elements := (dict_get data t).map
                      fun e => SvgElement.shape (render t e) }).map
      SvgGroup.id) = l.filter fun t => !(dict_get data t).isEmpty := by
  induction l with
  | nil => rfl
  | cons t l ih =>
    rw [List.filterMap_cons, List.filter_cons]
    by_cases h : (dict_get data t).isEmpty
    · rw [if_pos h, h]
      simp only [Bool.not_true]
      rw [if_neg (by simp)]
      exact ih
    · rw [if_neg h, List.map_cons, if_pos (by simp [h]), ih]

lemma category_groups_ids {σ : Type} (render : String → Entity → σ)
    (data : EntityCollection) :
    (category_groups render data).map SvgGroup.id =
      entity_types.filter fun t => !(dict_get data t).isEmpty := by
  rw [category_groups_eq]
  exact filterMap_groups_ids render data entity_types

lemma mem_category_groups {σ : Type} (render : String → Entity → σ)
    (data : EntityCollection) (g : SvgGroup σ) (hg : g ∈ category_groups render data) :
    g.elements = (dict_get data g.id).map fun e => SvgElement.shape (render g.id e) := by
  rw [category_groups_eq] at hg
  rcases List.mem_filterMap.mp hg with ⟨t, _, hsome⟩
  by_cases h : (dict_get data t).isEmpty
  · rw [if_pos h] at hsome
    cases hsome
  · rw [if_neg h] at hsome
    injection hsome with hsome
    subst hsome
    rfl

/-- C8: for every input on which the layout succeeds, `create` emits the
grid group first, then one group per entity category in the fixed order
belts, walls, splitters, asset, spaceship, rails; a category group is
present exactly when the category has at least one entity, and the
rendered entities inside each group appear in their original sequence
order. -/
theorem create_emits_grid_then_categories {σ : Type} (render : String → Entity → σ)
    (data : EntityCollection) (L : Layout)
    (h : calculate_canvas_and_viewbox data .landscape = .ok L) :
    create render data = .ok
      { svg_width_mm := L.svg_width_mm
        svg_height_mm := L.svg_height_mm
        viewbox := (L.viewbox_x, L.viewbox_y, L.viewbox_width, L.viewbox_height)
        groups := { id := "grid", elements := (create_grid L.viewbox_x L.viewbox_y
            L.viewbox_width L.viewbox_height).map SvgElement.line } ::
          category_groups render data } ∧
    (category_groups render data).map SvgGroup.id =
      entity_types.filter (fun t => !(dict_get data t).isEmpty) ∧
    ∀ g ∈ category_groups render data,
      g.elements = (dict_get data g.id).map fun e => SvgElement.shape (render g.id e) := by
  refine ⟨?_, category_groups_ids render data,
    fun g hg => mem_category_groups render data g hg⟩
  simp only [create, h]

/-- Witness for C8 at a concrete two-entity collection. -/
theorem create_emits_grid_then_categories_witness :
    calculate_canvas_and_viewbox [("rails", [⟨0, 0⟩, ⟨1/100, 1/100⟩])] .landscape =
      .ok ⟨297, 210, -87/38000, 0, 297/19000, 21/1900⟩ ∧
    (create (fun t _ => t) [("rails", [⟨0, 0⟩, ⟨1/100, 1/100⟩])] = .ok
      { svg_width_mm := 297
        svg_height_mm := 210
        viewbox := (-87/38000, 0, 297/19000, 21/1900)
        groups := { id := "grid", elements := (create_grid (-87/38000) 0 (297/19000)
            (21/1900)).map SvgElement.line } ::
          category_groups (fun t _ => t) [("rails", [⟨0, 0⟩, ⟨1/100, 1/100⟩])] } ∧
    (category_groups (fun t _ => t) [("rails", [⟨0, 0⟩, ⟨1/100, 1/100⟩])]).map
        SvgGroup.id =
      entity_types.filter
        (fun t => !(dict_get [("rails", [⟨0, 0⟩, ⟨1/100, 1/100⟩])] t).isEmpty) ∧
    ∀ g ∈ category_groups (fun t _ => t) [("rails", [⟨0, 0⟩, ⟨1/100, 1/100⟩])],
      g.elements = (dict_get [("rails", [⟨0, 0⟩, ⟨1/100, 1/100⟩])] g.id).map
        fun _ => SvgElement.shape g.id) := by
  have hb : get_entity_bounds [("rails", [⟨0, 0⟩, ⟨1/100, 1/100⟩])] =
      some ⟨0, 1/100, 0, 1/100⟩ := by
    rw [get_entity_bounds_cons [("rails", [⟨0, 0⟩, ⟨1/100, 1/100⟩])] ⟨0, 0⟩
      [⟨1/100, 1/100⟩] rfl]
    norm_num [min_def, max_def]
  have hscale : layout_scale ⟨0, 1/100, 0, 1/100⟩ .landscape = 19000 := by
    rw [layout_scale, min_eq_right]
    · norm_num [content_height_mm, layout_height, page_size, padding_mm]
    · norm_num [content_width_mm, content_height_mm, layout_width, layout_height,
        page_size, padding_mm]
  have hlay : layout_of_bounds ⟨0, 1/100, 0, 1/100⟩ .landscape =
      .ok ⟨297, 210, -87/38000, 0, 297/19000, 21/1900⟩ := by
    rw [layout_of_bounds, if_neg]
    · simp only [x_offset, y_offset, scaled_width, scaled_height, hscale,
        layout_width, layout_height, page_size, padding_mm]
      norm_num
    · norm_num [layout_width, layout_height]
  have hcalc : calculate_canvas_and_viewbox [("rails", [⟨0, 0⟩, ⟨1/100, 1/100⟩])]
      .landscape = .ok ⟨297, 210, -87/38000, 0, 297/19000, 21/1900⟩ := by
    simp only [calculate_canvas_and_viewbox, hb]
    exact hlay
  exact ⟨hcalc, create_emits_grid_then_categories (fun t _ => t) _ _ hcalc⟩
